import Mathlib

/-!
Shallow embedding of `main.go` from Harshitha-K-co/weather-go.

The program is a small HTTP server with two handlers:
  * `hello` writes the fixed body "Hello, World!\n";
  * the `/weather/` handler splits the request path with
    `strings.SplitN(path, "/", 3)`, rejects an empty city with a 400,
    and otherwise calls `query`, which loads `.apiConfig`, issues one
    outbound GET and decodes the JSON body into `weatherData`.

Modelling decisions (all external to the repository's own code):
  * JSON documents are modelled by an inductive `Json` value; numbers
    are rationals (the temperature only flows through, no arithmetic
    happens on it).
  * A byte string that is about to be JSON-parsed (a config file or a
    response body) is modelled by its parse outcome `RawContent`: either
    a `Json` value, or `notJson m`, carrying the parse-error message the
    decoder reports for it.
  * `encoding/json` decoding into a struct is modelled field by field in
    stream order: unknown keys are ignored, a later duplicate key
    overwrites an earlier one, `null` leaves the field unchanged, and a
    type mismatch on a recognized key is an error.  Go's additional
    case-insensitive field-name fallback is not modelled; keys are
    matched exactly, as the spec describes.
  * `net/http`: `http.Get` is an oracle from the URL to a transport
    error or a response (status code and body); the status code is
    carried so that it is visible that `query` never inspects it.
    `http.Error` produces a plain-text response with the given message
    and status (the trailing newline its `Fprintln` adds is abstracted
    away).  I/O effects of `query` are recorded in an explicit trace.
-/

namespace WeatherGo

/-- A JSON value; numbers are modelled as rationals. -/
inductive Json where
  | null : Json
  | boolVal : Bool → Json
  | num : Rat → Json
  | str : String → Json
  | arr : List Json → Json
  | obj : List (String × Json) → Json

/-- A byte string viewed through the JSON parser: either the `Json`
value it parses to, or `notJson m` where `m` is the parse-error message
the decoder reports for it. -/
inductive RawContent where
  | notJson : String → RawContent
  | json : Json → RawContent

/-- `type apiConfig struct { OpenWeatherMapApiKey string }` (main.go:15). -/
structure apiConfig where
  OpenWeatherMapApiKey : String
deriving DecidableEq

/-- The anonymous struct nested in `weatherData` holding `temp` (main.go:21). -/
structure MainTemp where
  Kelvin : Rat
deriving DecidableEq

/-- `type weatherData struct { Name string; Main struct { Kelvin float64 } }` (main.go:19). -/
structure weatherData where
  Name : String
  Main : MainTemp
deriving DecidableEq

/-- The three error classes the program can produce, each carrying the
raw message; the constructor only tags where the error came from
(`os.ReadFile`, `encoding/json`, `http.Get`). -/
inductive GoError where
  | ioError : String → GoError
  | parseError : String → GoError
  | netError : String → GoError
deriving DecidableEq

/-- `err.Error()`: the raw message carried by an error. -/
def GoError.message : GoError → String
  | .ioError m => m
  | .parseError m => m
  | .netError m => m

/-- `json.Unmarshal` into `apiConfig`, field by field in stream order:
the key "OpenWeatherMapApiKey" must map to a string (or null); all
other keys are ignored; a later duplicate overwrites. -/
def unmarshalApiConfigFields : List (String × Json) → apiConfig → Except String apiConfig
  | [], c => .ok c
  | (k, v) :: rest, c =>
    if k = "OpenWeatherMapApiKey" then
      match v with
      | .str s => unmarshalApiConfigFields rest ⟨s⟩
      | .null => unmarshalApiConfigFields rest c
      | _ => .error "json: cannot unmarshal value into field OpenWeatherMapApiKey of type string"
    else unmarshalApiConfigFields rest c

/-- `json.Unmarshal` into `apiConfig`: the top-level value must be an
object (or null, which leaves the zero value). -/
def unmarshalApiConfig : Json → Except String apiConfig
  | .obj fields => unmarshalApiConfigFields fields ⟨""⟩
  | .null => .ok ⟨""⟩
  | _ => .error "json: cannot unmarshal value into type main.apiConfig"

/-- `loadApiConfig` (main.go:26): read the file, then unmarshal; each
failure is returned to the caller unchanged, tagged by its stage. -/
def loadApiConfig (fs : String → Except String RawContent) (filename : String) :
    Except GoError apiConfig :=
  match fs filename with
  | .error e => .error (.ioError e)
  | .ok (.notJson m) => .error (.parseError m)
  | .ok (.json v) =>
    match unmarshalApiConfig v with
    | .error e => .error (.parseError e)
    | .ok c => .ok c

/-- Decoding the inner object of key "main" into `MainTemp`: the key
"temp" must map to a number (or null); other keys are ignored. -/
def decodeMainFields : List (String × Json) → MainTemp → Except String MainTemp
  | [], m => .ok m
  | (k, v) :: rest, m =>
    if k = "temp" then
      match v with
      | .num t => decodeMainFields rest ⟨t⟩
      | .null => decodeMainFields rest m
      | _ => .error "json: cannot unmarshal value into field temp of type float64"
    else decodeMainFields rest m

/-- Decoding a JSON object's fields into `weatherData` in stream order:
"name" must map to a string, "main" to an object decoded into the
nested struct; all other keys are ignored. -/
def decodeWDFields : List (String × Json) → weatherData → Except String weatherData
  | [], d => .ok d
  | (k, v) :: rest, d =>
    if k = "name" then
      match v with
      | .str s => decodeWDFields rest ⟨s, d.Main⟩
      | .null => decodeWDFields rest d
      | _ => .error "json: cannot unmarshal value into field name of type string"
    else if k = "main" then
      match v with
      | .obj mf =>
        match decodeMainFields mf d.Main with
        | .ok m => decodeWDFields rest ⟨d.Name, m⟩
        | .error e => .error e
      | .null => decodeWDFields rest d
      | _ => .error "json: cannot unmarshal value into field main of type struct"
    else decodeWDFields rest d

/-- `json.NewDecoder(resp.Body).Decode(&d)` (main.go:62): the top-level
value must be an object (or null, which leaves the zero value). -/
def decodeWeatherData : Json → Except String weatherData
  | .obj fields => decodeWDFields fields ⟨"", ⟨0⟩⟩
  | .null => .ok ⟨"", ⟨0⟩⟩
  | _ => .error "json: cannot unmarshal value into type main.weatherData"

/-- `json.NewEncoder(w).Encode(data)` (main.go:86): `weatherData`
serializes with its fields in declaration order. -/
def encodeWeatherData (d : weatherData) : Json :=
  .obj [("name", .str d.Name), ("main", .obj [("temp", .num d.Main.Kelvin)])]

/-- An upstream HTTP response: `query` never reads `statusCode`; the
body is the stream handed to the JSON decoder. -/
structure HttpResp where
  statusCode : Nat
  body : RawContent

/-- The I/O effects `query` can perform, in order of occurrence. -/
inductive Effect where
  | fileRead : String → Effect
  | httpGet : String → Effect
  | closeBody : Effect
deriving DecidableEq

/-- The outbound URL built at main.go:52 by plain string concatenation:
the city is interpolated verbatim, with no encoding or sanitization. -/
def requestURL (city key : String) : String :=
  "http://api.Openweathermap.org/data/2.5/weather?q=" ++ city ++ "&appid=" ++ key

/-- `query` (main.go:47): load `.apiConfig`; on success issue one GET to
`requestURL`; on transport success the body is closed on every
remaining path (the deferred `resp.Body.Close()` at main.go:59), whether
decoding succeeds or fails.  The filesystem and the network are passed
as oracles and the performed effects are returned as a trace. -/
def query (fs : String → Except String RawContent)
    (net : String → Except String HttpResp) (city : String) :
    Except GoError weatherData × List Effect :=
  match loadApiConfig fs ".apiConfig" with
  | .error e => (.error e, [.fileRead ".apiConfig"])
  | .ok cfg =>
    match net (requestURL city cfg.OpenWeatherMapApiKey) with
    | .error e =>
      (.error (.netError e),
       [.fileRead ".apiConfig", .httpGet (requestURL city cfg.OpenWeatherMapApiKey)])
    | .ok resp =>
      match resp.body with
      | .notJson m =>
        (.error (.parseError m),
         [.fileRead ".apiConfig", .httpGet (requestURL city cfg.OpenWeatherMapApiKey),
          .closeBody])
      | .json v =>
        match decodeWeatherData v with
        | .error e =>
          (.error (.parseError e),
           [.fileRead ".apiConfig", .httpGet (requestURL city cfg.OpenWeatherMapApiKey),
            .closeBody])
        | .ok d =>
          (.ok d,
           [.fileRead ".apiConfig", .httpGet (requestURL city cfg.OpenWeatherMapApiKey),
            .closeBody])

/-- Splitting off the part of a character list before the first
occurrence of `sep`, together with the remainder after it. -/
def splitFirst (sep : Char) : List Char → Option (List Char × List Char)
  | [] => none
  | c :: cs =>
    if c = sep then some ([], cs)
    else
      match splitFirst sep cs with
      | none => none
      | some (p, r) => some (c :: p, r)

/-- `strings.SplitN` on a single-character separator: at most `n`
substrings, the last one holding the unsplit remainder. -/
def splitNChar (sep : Char) : Nat → List Char → List (List Char)
  | 0, _ => []
  | 1, s => [s]
  | n + 2, s =>
    match splitFirst sep s with
    | none => [s]
    | some (p, r) => p :: splitNChar sep (n + 1) r

/-- `strings.SplitN(s, sep, n)` as used at main.go:75, modelled for the
single-character separator of that call site. -/
def goSplitN (s sep : String) (n : Nat) : List String :=
  match sep.toList with
  | [c] => (splitNChar c n s.toList).map List.asString
  | _ => [s]

/-- The body of an HTTP response written by a handler: plain text (from
`w.Write` or `http.Error`) or a JSON document (from the encoder). -/
inductive Body where
  | text : String → Body
  | jsonBody : Json → Body

/-- Content type set by `http.Error`, and sniffed for the plain-text
bodies the handlers write. -/
def textPlainCT : String := "text/plain; charset=utf-8"

/-- Content type set at main.go:85 on the success path. -/
def appJsonCT : String := "application/json; charset=utf-8"

/-- The observable response a handler produces for one request. -/
structure HttpResponse where
  status : Nat
  contentType : String
  body : Body

/-- `http.Error(w, msg, code)`: a plain-text reply carrying the message
and the status code. -/
def httpError (msg : String) (code : Nat) : HttpResponse :=
  { status := code, contentType := textPlainCT, body := .text msg }

/-- `hello` (main.go:42): writes the fixed body, ignoring everything
about the request; the implicit first write yields status 200 and the
sniffed plain-text content type. -/
def hello (method queryParams : String) : HttpResponse :=
  { status := 200, contentType := textPlainCT, body := .text "Hello, World!\n" }

/-- Turning the result of `query` into the HTTP response written at
main.go:81-86: an error becomes `http.Error(..., 500)`; a value is
encoded as JSON with status 200. -/
def weatherResponse : Except GoError weatherData × List Effect → HttpResponse × List Effect
  | (.error e, tr) => (httpError e.message 500, tr)
  | (.ok d, tr) =>
    ({ status := 200, contentType := appJsonCT, body := .jsonBody (encodeWeatherData d) }, tr)

/-- The `/weather/` handler (main.go:74-87), applied to the full request
path (the mux forwards every path under the registered prefix here):
split the path into at most three pieces; if there is no non-empty
third piece, reply 400; otherwise run `query` on it. -/
def weatherHandler (fs : String → Except String RawContent)
    (net : String → Except String HttpResp) (path : String) :
    HttpResponse × List Effect :=
  let parts := goSplitN path "/" 3
  if parts.length < 3 ∨ parts.getD 2 "" = "" then
    (httpError "City name not provided" 400, [])
  else
    weatherResponse (query fs net (parts.getD 2 ""))

example : goSplitN "/weather/London" "/" 3 = ["", "weather", "London"] := rfl
example : goSplitN "/weather/a/b/c" "/" 3 = ["", "weather", "a/b/c"] := rfl
example : goSplitN "/weather/" "/" 3 = ["", "weather", ""] := rfl
example :
    decodeWeatherData (.obj [("cod", .num 401), ("message", .str "Invalid API key")]) =
      .ok ⟨"", ⟨0⟩⟩ := rfl

/-! ### Splitting the request path -/

lemma splitNChar_weather (l : List Char) :
    splitNChar '/' 3 ('/' :: 'w' :: 'e' :: 'a' :: 't' :: 'h' :: 'e' :: 'r' :: '/' :: l) =
      [[], ['w', 'e', 'a', 't', 'h', 'e', 'r'], l] := rfl

/-- On any path of the form `"/weather/" ++ rest`, `SplitN(path, "/", 3)`
yields `["", "weather", rest]`: the whole remainder, embedded slashes
included, is the third piece. -/
lemma goSplitN_weather (rest : String) :
    goSplitN ("/weather/" ++ rest) "/" 3 = ["", "weather", rest] := by
  have h : ("/weather/" ++ rest).toList =
      '/' :: 'w' :: 'e' :: 'a' :: 't' :: 'h' :: 'e' :: 'r' :: '/' :: rest.toList := rfl
  show (splitNChar '/' 3 ("/weather/" ++ rest).toList).map List.asString = _
  rw [h, splitNChar_weather]
  rfl

/-- For a non-empty `rest`, the `/weather/` handler at path
`"/weather/" ++ rest` delegates to `query` with city `rest`. -/
lemma weatherHandler_nonempty (fs : String → Except String RawContent)
    (net : String → Except String HttpResp) (rest : String) (h : rest ≠ "") :
    weatherHandler fs net ("/weather/" ++ rest) = weatherResponse (query fs net rest) := by
  show (if _ then _ else _) = _
  rw [goSplitN_weather]
  simp [h]

/-- At path `"/weather/"` (empty city) the handler replies 400 without
invoking `query`. -/
lemma weatherHandler_empty (fs : String → Except String RawContent)
    (net : String → Except String HttpResp) :
    weatherHandler fs net "/weather/" = (httpError "City name not provided" 400, []) := rfl

/-! ### Characterizing the decoder on bodies with unique `name`, `main`,
`temp` occurrences -/

lemma decodeMainFields_of_no_temp (mflds : List (String × Json)) (m : MainTemp)
    (h : mflds.filter (fun p => p.1 == "temp") = []) :
    decodeMainFields mflds m = .ok m := by
  induction mflds with
  | nil => rfl
  | cons hd tl ih =>
    obtain ⟨k, v⟩ := hd
    simp only [List.filter_cons] at h
    by_cases hk : k = "temp"
    · simp [hk] at h
    · simp only [beq_iff_eq, hk, if_false, reduceIte] at h
      simp only [decodeMainFields]
      rw [if_neg hk]
      exact ih h

lemma decodeMainFields_of_temp (mflds : List (String × Json)) (t : Rat) (m : MainTemp)
    (h : mflds.filter (fun p => p.1 == "temp") = [("temp", .num t)]) :
    decodeMainFields mflds m = .ok ⟨t⟩ := by
  induction mflds with
  | nil => simp at h
  | cons hd tl ih =>
    obtain ⟨k, v⟩ := hd
    simp only [List.filter_cons] at h
    by_cases hk : k = "temp"
    · simp only [hk, beq_self_eq_true, if_true, reduceIte, List.cons.injEq,
        Prod.mk.injEq] at h
      obtain ⟨⟨-, hv⟩, htl⟩ := h
      simp only [decodeMainFields]
      rw [if_pos hk, hv]
      exact decodeMainFields_of_no_temp tl ⟨t⟩ htl
    · simp only [beq_iff_eq, hk, if_false, reduceIte] at h
      simp only [decodeMainFields]
      rw [if_neg hk]
      exact ih h

/-- Unfolding lemma for `decodeWDFields` on a cons cell. -/
lemma decodeWDFields_cons (k : String) (v : Json) (rest : List (String × Json))
    (d : weatherData) :
    decodeWDFields ((k, v) :: rest) d =
      (if k = "name" then
        match v with
        | .str s => decodeWDFields rest ⟨s, d.Main⟩
        | .null => decodeWDFields rest d
        | _ => .error "json: cannot unmarshal value into field name of type string"
      else if k = "main" then
        match v with
        | .obj mf =>
          match decodeMainFields mf d.Main with
          | .ok m => decodeWDFields rest ⟨d.Name, m⟩
          | .error e => .error e
        | .null => decodeWDFields rest d
        | _ => .error "json: cannot unmarshal value into field main of type struct"
      else decodeWDFields rest d) := rfl

lemma decodeWDFields_of_none (flds : List (String × Json)) (d : weatherData)
    (hn : flds.filter (fun p => p.1 == "name") = [])
    (hm : flds.filter (fun p => p.1 == "main") = []) :
    decodeWDFields flds d = .ok d := by
  induction flds with
  | nil => rfl
  | cons hd tl ih =>
    obtain ⟨k, v⟩ := hd
    simp only [List.filter_cons] at hn hm
    by_cases hk : k = "name"
    · simp [hk] at hn
    · by_cases hk2 : k = "main"
      · simp [hk2] at hm
      · simp only [beq_iff_eq, hk, hk2, if_false, reduceIte] at hn hm
        rw [decodeWDFields_cons]
        rw [if_neg hk, if_neg hk2]
        exact ih hn hm

lemma decodeWDFields_of_name (flds : List (String × Json)) (n : String) (d : weatherData)
    (hn : flds.filter (fun p => p.1 == "name") = [("name", .str n)])
    (hm : flds.filter (fun p => p.1 == "main") = []) :
    decodeWDFields flds d = .ok ⟨n, d.Main⟩ := by
  induction flds with
  | nil => simp at hn
  | cons hd tl ih =>
    obtain ⟨k, v⟩ := hd
    simp only [List.filter_cons] at hn hm
    by_cases hk : k = "name"
    · simp only [hk, beq_self_eq_true, if_true, reduceIte, List.cons.injEq,
        Prod.mk.injEq] at hn
      obtain ⟨⟨-, hv⟩, htl⟩ := hn
      have hk2 : k ≠ "main" := by rw [hk]; decide
      simp only [beq_iff_eq, hk2, if_false, reduceIte] at hm
      rw [decodeWDFields_cons]
      rw [if_pos hk, hv]
      exact decodeWDFields_of_none tl ⟨n, d.Main⟩ htl hm
    · by_cases hk2 : k = "main"
      · simp [hk2] at hm
      · simp only [beq_iff_eq, hk, hk2, if_false, reduceIte] at hn hm
        rw [decodeWDFields_cons]
        rw [if_neg hk, if_neg hk2]
        exact ih hn hm

lemma decodeWDFields_of_main (flds mflds : List (String × Json)) (t : Rat) (d : weatherData)
    (hn : flds.filter (fun p => p.1 == "name") = [])
    (hm : flds.filter (fun p => p.1 == "main") = [("main", .obj mflds)])
    (ht : mflds.filter (fun p => p.1 == "temp") = [("temp", .num t)]) :
    decodeWDFields flds d = .ok ⟨d.Name, ⟨t⟩⟩ := by
  induction flds with
  | nil => simp at hm
  | cons hd tl ih =>
    obtain ⟨k, v⟩ := hd
    simp only [List.filter_cons] at hn hm
    by_cases hk : k = "name"
    · simp [hk] at hn
    · by_cases hk2 : k = "main"
      · simp only [hk2, beq_self_eq_true, if_true, reduceIte, List.cons.injEq,
          Prod.mk.injEq] at hm
        obtain ⟨⟨-, hv⟩, htl⟩ := hm
        have hk3 : k ≠ "name" := hk
        simp only [beq_iff_eq, hk3, if_false, reduceIte] at hn
        rw [decodeWDFields_cons]
        rw [if_neg hk, if_pos hk2, hv]
        simp only [decodeMainFields_of_temp mflds t d.Main ht]
        exact decodeWDFields_of_none tl ⟨d.Name, ⟨t⟩⟩ hn htl
      · simp only [beq_iff_eq, hk, hk2, if_false, reduceIte] at hn hm
        rw [decodeWDFields_cons]
        rw [if_neg hk, if_neg hk2]
        exact ih hn hm

lemma decodeWDFields_of_both (flds mflds : List (String × Json)) (n : String) (t : Rat)
    (d : weatherData)
    (hn : flds.filter (fun p => p.1 == "name") = [("name", .str n)])
    (hm : flds.filter (fun p => p.1 == "main") = [("main", .obj mflds)])
    (ht : mflds.filter (fun p => p.1 == "temp") = [("temp", .num t)]) :
    decodeWDFields flds d = .ok ⟨n, ⟨t⟩⟩ := by
  induction flds with
  | nil => simp at hn
  | cons hd tl ih =>
    obtain ⟨k, v⟩ := hd
    simp only [List.filter_cons] at hn hm
    by_cases hk : k = "name"
    · simp only [hk, beq_self_eq_true, if_true, reduceIte, List.cons.injEq,
        Prod.mk.injEq] at hn
      obtain ⟨⟨-, hv⟩, htl⟩ := hn
      have hk2 : k ≠ "main" := by rw [hk]; decide
      simp only [beq_iff_eq, hk2, if_false, reduceIte] at hm
      rw [decodeWDFields_cons]
      rw [if_pos hk, hv]
      exact decodeWDFields_of_main tl mflds t ⟨n, d.Main⟩ htl hm ht
    · by_cases hk2 : k = "main"
      · simp only [hk2, beq_self_eq_true, if_true, reduceIte, List.cons.injEq,
          Prod.mk.injEq] at hm
        obtain ⟨⟨-, hv⟩, htl⟩ := hm
        have hk3 : k ≠ "name" := hk
        simp only [beq_iff_eq, hk3, if_false, reduceIte] at hn
        rw [decodeWDFields_cons]
        rw [if_neg hk, if_pos hk2, hv]
        simp only [decodeMainFields_of_temp mflds t d.Main ht]
        exact decodeWDFields_of_name tl n ⟨d.Name, ⟨t⟩⟩ hn htl
      · simp only [beq_iff_eq, hk, hk2, if_false, reduceIte] at hn hm
        rw [decodeWDFields_cons]
        rw [if_neg hk, if_neg hk2]
        exact ih hn hm

/-- A JSON object whose unique `name` occurrence is the string `n` and
whose unique `main` occurrence is an object with unique `temp`
occurrence `t` decodes to exactly `⟨n, ⟨t⟩⟩`, every other field being
dropped. -/
lemma decodeWeatherData_of_both (flds mflds : List (String × Json)) (n : String) (t : Rat)
    (hn : flds.filter (fun p => p.1 == "name") = [("name", .str n)])
    (hm : flds.filter (fun p => p.1 == "main") = [("main", .obj mflds)])
    (ht : mflds.filter (fun p => p.1 == "temp") = [("temp", .num t)]) :
    decodeWeatherData (.obj flds) = .ok ⟨n, ⟨t⟩⟩ :=
  decodeWDFields_of_both flds mflds n t ⟨"", ⟨0⟩⟩ hn hm ht

/-! ### Unfolding `query` along the outcome of each oracle -/

lemma query_of_cfg_error (fs : String → Except String RawContent)
    (net : String → Except String HttpResp) (city : String) (e : GoError)
    (hcfg : loadApiConfig fs ".apiConfig" = .error e) :
    query fs net city = (.error e, [.fileRead ".apiConfig"]) := by
  unfold query
  rw [hcfg]

lemma query_of_net_error (fs : String → Except String RawContent)
    (net : String → Except String HttpResp) (city : String) (cfg : apiConfig) (e : String)
    (hcfg : loadApiConfig fs ".apiConfig" = .ok cfg)
    (hnet : net (requestURL city cfg.OpenWeatherMapApiKey) = .error e) :
    query fs net city =
      (.error (.netError e),
       [.fileRead ".apiConfig", .httpGet (requestURL city cfg.OpenWeatherMapApiKey)]) := by
  unfold query
  simp only [hcfg, hnet]

lemma query_of_notJson (fs : String → Except String RawContent)
    (net : String → Except String HttpResp) (city : String) (cfg : apiConfig)
    (code : Nat) (m : String)
    (hcfg : loadApiConfig fs ".apiConfig" = .ok cfg)
    (hnet : net (requestURL city cfg.OpenWeatherMapApiKey) = .ok ⟨code, .notJson m⟩) :
    query fs net city =
      (.error (.parseError m),
       [.fileRead ".apiConfig", .httpGet (requestURL city cfg.OpenWeatherMapApiKey),
        .closeBody]) := by
  unfold query
  simp only [hcfg, hnet]

lemma query_of_json_err (fs : String → Except String RawContent)
    (net : String → Except String HttpResp) (city : String) (cfg : apiConfig)
    (code : Nat) (v : Json) (m : String)
    (hcfg : loadApiConfig fs ".apiConfig" = .ok cfg)
    (hnet : net (requestURL city cfg.OpenWeatherMapApiKey) = .ok ⟨code, .json v⟩)
    (hdec : decodeWeatherData v = .error m) :
    query fs net city =
      (.error (.parseError m),
       [.fileRead ".apiConfig", .httpGet (requestURL city cfg.OpenWeatherMapApiKey),
        .closeBody]) := by
  unfold query
  simp only [hcfg, hnet, hdec]

lemma query_of_json_ok (fs : String → Except String RawContent)
    (net : String → Except String HttpResp) (city : String) (cfg : apiConfig)
    (code : Nat) (v : Json) (d : weatherData)
    (hcfg : loadApiConfig fs ".apiConfig" = .ok cfg)
    (hnet : net (requestURL city cfg.OpenWeatherMapApiKey) = .ok ⟨code, .json v⟩)
    (hdec : decodeWeatherData v = .ok d) :
    query fs net city =
      (.ok d,
       [.fileRead ".apiConfig", .httpGet (requestURL city cfg.OpenWeatherMapApiKey),
        .closeBody]) := by
  unfold query
  simp only [hcfg, hnet, hdec]

/-- The response built from a `query` outcome is either the 500 error
reply or the 200 JSON reply; no other status can arise. -/
lemma weatherResponse_status (p : Except GoError weatherData × List Effect) :
    (weatherResponse p).fst.status = 500 ∨ (weatherResponse p).fst.status = 200 := by
  obtain ⟨res, tr⟩ := p
  cases res with
  | error e => exact Or.inl rfl
  | ok d => exact Or.inr rfl

/-! ### Concrete oracles used by the witnesses and counterexamples -/

/-- A filesystem whose every file holds the JSON document
`{"OpenWeatherMapApiKey": "k123"}`. -/
def fsGood : String → Except String RawContent :=
  fun _ => .ok (.json (.obj [("OpenWeatherMapApiKey", .str "k123")]))

/-- A filesystem on which every read fails, as when `.apiConfig` is
absent. -/
def fsAbsent : String → Except String RawContent :=
  fun _ => .error "open .apiConfig: no such file or directory"

/-- A well-formed upstream body for London with an extra field. -/
def londonBody : Json :=
  .obj [("name", .str "London"), ("main", .obj [("temp", .num (577 / 2)), ("humidity", .num 81)]),
        ("base", .str "stations")]

/-- A network that answers every URL with status 200 and `londonBody`. -/
def netGood : String → Except String HttpResp :=
  fun _ => .ok ⟨200, .json londonBody⟩

/-- A network on which every request fails at the transport level. -/
def netDown : String → Except String HttpResp :=
  fun _ => .error "dial tcp: connection refused"

/-- A network that answers every URL with the upstream's unauthorized
JSON error document, as it does for an empty or malformed API key. -/
def netUnauthorized : String → Except String HttpResp :=
  fun _ => .ok ⟨401, .json (.obj [("cod", .num 401), ("message", .str "Invalid API key")])⟩

/-! ### The claims -/

/-- Claim C1: for every upstream body that is a well-formed JSON object
whose unique "name" field is the string `n` and whose unique "main"
field is an object with unique float field "temp" `t` — possibly among
arbitrary other fields — the `/weather/<city>` handler responds 200
with the JSON content type and emits exactly the object
`{"name": n, "main": {"temp": t}}`; every other upstream field is
dropped. -/
theorem claim1_roundtrip_projection (fs : String → Except String RawContent)
    (net : String → Except String HttpResp) (city : String) (cfg : apiConfig)
    (code : Nat) (flds mflds : List (String × Json)) (n : String) (t : Rat)
    (hcity : city ≠ "")
    (hcfg : loadApiConfig fs ".apiConfig" = .ok cfg)
    (hnet : net (requestURL city cfg.OpenWeatherMapApiKey) = .ok ⟨code, .json (.obj flds)⟩)
    (hn : flds.filter (fun p => p.1 == "name") = [("name", .str n)])
    (hm : flds.filter (fun p => p.1 == "main") = [("main", .obj mflds)])
    (ht : mflds.filter (fun p => p.1 == "temp") = [("temp", .num t)]) :
    (weatherHandler fs net ("/weather/" ++ city)).fst =
      { status := 200, contentType := appJsonCT,
        body := .jsonBody (.obj [("name", .str n), ("main", .obj [("temp", .num t)])]) } := by
  rw [weatherHandler_nonempty fs net city hcity,
    query_of_json_ok fs net city cfg code (.obj flds) ⟨n, ⟨t⟩⟩ hcfg hnet
      (decodeWeatherData_of_both flds mflds n t hn hm ht)]
  rfl

/-- Witness for C1 on a concrete upstream body for London carrying the
extra fields "humidity" and "base", which are dropped. -/
theorem claim1_witness :
    (weatherHandler fsGood netGood ("/weather/" ++ "London")).fst =
      { status := 200, contentType := appJsonCT,
        body := .jsonBody (.obj [("name", .str "London"),
          ("main", .obj [("temp", .num (577 / 2))])]) } :=
  claim1_roundtrip_projection fsGood netGood "London" ⟨"k123"⟩ 200
    [("name", .str "London"),
     ("main", .obj [("temp", .num (577 / 2)), ("humidity", .num 81)]),
     ("base", .str "stations")]
    [("temp", .num (577 / 2)), ("humidity", .num 81)] "London" (577 / 2)
    (by decide) rfl rfl rfl rfl rfl

/-- Claim C2, counterexample: with an empty city the handler does reply
400, but its body is "City name not provided" (capital C, written at
main.go:77), not the claimed "city name not provided". -/
theorem claim2_counterexample :
    (weatherHandler fsGood netGood "/weather/").fst.status = 400 ∧
    (weatherHandler fsGood netGood "/weather/").fst.body ≠ Body.text "city name not provided" := by
  refine ⟨rfl, ?_⟩
  intro h
  have h2 : Body.text "City name not provided" = Body.text "city name not provided" := h
  injection h2 with h3
  exact absurd h3 (by decide)

/-- Claim C2 (amended: the 400 body is "City name not provided", with a
capital C): for every request path `/weather/` ++ c, if c is empty the
handler replies 400 with that plain-text body, performing no file read
and no outbound call; otherwise the request reaches the upstream-call
stage with city c. -/
theorem claim2_routing (fs : String → Except String RawContent)
    (net : String → Except String HttpResp) (c : String) :
    (c = "" → weatherHandler fs net ("/weather/" ++ c) =
      (httpError "City name not provided" 400, [])) ∧
    (c ≠ "" → weatherHandler fs net ("/weather/" ++ c) =
      weatherResponse (query fs net c)) := by
  constructor
  · intro h
    subst h
    rfl
  · intro h
    exact weatherHandler_nonempty fs net c h

/-- Witness for C2 at the empty city and at the city "Oslo". -/
theorem claim2_witness :
    weatherHandler fsGood netGood ("/weather/" ++ "") =
      (httpError "City name not provided" 400, []) ∧
    weatherHandler fsGood netGood ("/weather/" ++ "Oslo") =
      weatherResponse (query fsGood netGood "Oslo") :=
  ⟨(claim2_routing fsGood netGood "").1 rfl,
   (claim2_routing fsGood netGood "Oslo").2 (by decide)⟩

/-- Claim C3: if loading the config file fails, every `/weather/<city>`
request with a non-empty city replies 500 and no outbound HTTP call
appears in the effect trace — the config read gates the upstream
call. -/
theorem claim3_config_gates_upstream (fs : String → Except String RawContent)
    (net : String → Except String HttpResp) (city : String) (e : GoError)
    (hcity : city ≠ "")
    (hcfg : loadApiConfig fs ".apiConfig" = .error e) :
    (weatherHandler fs net ("/weather/" ++ city)).fst.status = 500 ∧
    ∀ u, Effect.httpGet u ∉ (weatherHandler fs net ("/weather/" ++ city)).snd := by
  rw [weatherHandler_nonempty fs net city hcity, query_of_cfg_error fs net city e hcfg]
  refine ⟨rfl, ?_⟩
  intro u
  simp [weatherResponse]

/-- Witness for C3 on a filesystem where `.apiConfig` is absent. -/
theorem claim3_witness :
    (weatherHandler fsAbsent netGood ("/weather/" ++ "Paris")).fst.status = 500 ∧
    ∀ u, Effect.httpGet u ∉ (weatherHandler fsAbsent netGood ("/weather/" ++ "Paris")).snd :=
  claim3_config_gates_upstream fsAbsent netGood "Paris"
    (.ioError "open .apiConfig: no such file or directory") (by decide) rfl

/-- Claim C4: whenever `query` fails — whatever the error kind — the
handler replies with status 500, plain-text content type and exactly
the raw error message as body, so the three error kinds are
indistinguishable in the response status. -/
theorem claim4_error_propagation (fs : String → Except String RawContent)
    (net : String → Except String HttpResp) (city : String) (e : GoError)
    (hcity : city ≠ "")
    (hq : (query fs net city).fst = .error e) :
    (weatherHandler fs net ("/weather/" ++ city)).fst = httpError e.message 500 := by
  rw [weatherHandler_nonempty fs net city hcity]
  rcases hp : query fs net city with ⟨res, tr⟩
  rw [hp] at hq
  simp only at hq
  subst hq
  rfl

/-- Witness for C4 on a network whose every request fails at the
transport level. -/
theorem claim4_witness :
    (weatherHandler fsGood netDown ("/weather/" ++ "Paris")).fst =
      httpError (GoError.netError "dial tcp: connection refused").message 500 :=
  claim4_error_propagation fsGood netDown "Paris"
    (.netError "dial tcp: connection refused") (by decide) rfl

/-- Claim C5: `hello` replies 200 with the exact body "Hello, World!\n",
whatever the request method and query parameters are. -/
theorem claim5_hello_fixed (method queryParams : String) :
    hello method queryParams =
      { status := 200, contentType := textPlainCT, body := .text "Hello, World!\n" } := rfl

/-- Claim C6: `loadApiConfig` fails with an IO error exactly when the
file read fails (the read error passed through unchanged); it fails
with a parse error carrying the decoder's message when the content is
not valid JSON or does not unmarshal into the `apiConfig` shape; and
otherwise it returns the decoded credentials — no retry, no default. -/
theorem claim6_loadApiConfig_cases (fs : String → Except String RawContent) (path : String) :
    (∀ e, loadApiConfig fs path = .error (.ioError e) ↔ fs path = .error e) ∧
    (∀ m, fs path = .ok (.notJson m) →
      loadApiConfig fs path = .error (.parseError m)) ∧
    (∀ v m, fs path = .ok (.json v) → unmarshalApiConfig v = .error m →
      loadApiConfig fs path = .error (.parseError m)) ∧
    (∀ v c, fs path = .ok (.json v) → unmarshalApiConfig v = .ok c →
      loadApiConfig fs path = .ok c) := by
  refine ⟨?_, ?_, ?_, ?_⟩
  · intro e
    unfold loadApiConfig
    cases hf : fs path with
    | error e0 => simp
    | ok rc =>
      cases rc with
      | notJson m => simp
      | json v =>
        cases hu : unmarshalApiConfig v with
        | error m => simp [hu]
        | ok c => simp [hu]
  · intro m hf
    unfold loadApiConfig
    rw [hf]
  · intro v m hf hu
    unfold loadApiConfig
    simp only [hf, hu]
  · intro v c hf hu
    unfold loadApiConfig
    simp only [hf, hu]

/-- Witness for C6: an absent file yields the IO error unchanged; a
well-formed config file yields the decoded key. -/
theorem claim6_witness :
    loadApiConfig fsAbsent ".apiConfig" =
      .error (.ioError "open .apiConfig: no such file or directory") ∧
    loadApiConfig fsGood ".apiConfig" = .ok ⟨"k123"⟩ :=
  ⟨((claim6_loadApiConfig_cases fsAbsent ".apiConfig").1
      "open .apiConfig: no such file or directory").mpr rfl,
   (claim6_loadApiConfig_cases fsGood ".apiConfig").2.2.2
      (.obj [("OpenWeatherMapApiKey", .str "k123")]) ⟨"k123"⟩ rfl rfl⟩

/-- Claim C7, counterexample: when the upstream answers the key-caused
unauthorized JSON document `{"cod":401,"message":"Invalid API key"}`,
`http.Get` reports no error and the decoder accepts the body (its
fields are all unknown to `weatherData`), so the handler replies 200 —
not 500 as the claim states. -/
theorem claim7_counterexample :
    (weatherHandler fsGood netUnauthorized ("/weather/" ++ "London")).fst.status = 200 := rfl

/-- Claim C7 (amended: an unauthorized upstream *response* does not
propagate as a failure): if the key makes the upstream return an
unauthorized JSON error document, the decode succeeds with zero values
and the handler replies 200 with `{"name":"","main":{"temp":0}}`; only
a transport failure or an undecodable body yields 500. -/
theorem claim7_unauthorized_yields_200 (fs : String → Except String RawContent)
    (net : String → Except String HttpResp) (city : String) (cfg : apiConfig)
    (code : Nat) (codNum : Rat) (msg : String)
    (hcity : city ≠ "")
    (hcfg : loadApiConfig fs ".apiConfig" = .ok cfg)
    (hnet : net (requestURL city cfg.OpenWeatherMapApiKey) =
      .ok ⟨code, .json (.obj [("cod", .num codNum), ("message", .str msg)])⟩) :
    (weatherHandler fs net ("/weather/" ++ city)).fst =
      { status := 200, contentType := appJsonCT,
        body := .jsonBody (.obj [("name", .str ""), ("main", .obj [("temp", .num 0)])]) } := by
  rw [weatherHandler_nonempty fs net city hcity,
    query_of_json_ok fs net city cfg code
      (.obj [("cod", .num codNum), ("message", .str msg)]) ⟨"", ⟨0⟩⟩ hcfg hnet rfl]
  rfl

/-- Witness for C7 on the concrete unauthorized network. -/
theorem claim7_witness :
    (weatherHandler fsGood netUnauthorized ("/weather/" ++ "Paris")).fst =
      { status := 200, contentType := appJsonCT,
        body := .jsonBody (.obj [("name", .str ""), ("main", .obj [("temp", .num 0)])]) } :=
  claim7_unauthorized_yields_200 fsGood netUnauthorized "Paris" ⟨"k123"⟩ 401 401
    "Invalid API key" (by decide) rfl rfl

/-- Claim C8: whatever the city string is — spaces, slashes, query
metacharacters included — `query` issues its GET to the URL obtained by
concatenating the city verbatim into the `q=` parameter, with no
encoding and no sanitization. -/
theorem claim8_verbatim_url (fs : String → Except String RawContent)
    (net : String → Except String HttpResp) (city : String) (cfg : apiConfig)
    (hcfg : loadApiConfig fs ".apiConfig" = .ok cfg) :
    Effect.httpGet ("http://api.Openweathermap.org/data/2.5/weather?q=" ++ city ++
        "&appid=" ++ cfg.OpenWeatherMapApiKey) ∈ (query fs net city).snd := by
  cases hnet : net (requestURL city cfg.OpenWeatherMapApiKey) with
  | error e =>
    rw [query_of_net_error fs net city cfg e hcfg hnet]
    simp [requestURL]
  | ok resp =>
    obtain ⟨code, body⟩ := resp
    cases body with
    | notJson m =>
      rw [query_of_notJson fs net city cfg code m hcfg hnet]
      simp [requestURL]
    | json v =>
      cases hdec : decodeWeatherData v with
      | error m =>
        rw [query_of_json_err fs net city cfg code v m hcfg hnet hdec]
        simp [requestURL]
      | ok d =>
        rw [query_of_json_ok fs net city cfg code v d hcfg hnet hdec]
        simp [requestURL]

/-- Witness for C8 on a city containing a space, a slash and query
metacharacters. -/
theorem claim8_witness :
    Effect.httpGet ("http://api.Openweathermap.org/data/2.5/weather?q=" ++
        "new york/&appid=x" ++ "&appid=" ++ "k123") ∈
      (query fsGood netGood "new york/&appid=x").snd :=
  claim8_verbatim_url fsGood netGood "new york/&appid=x" ⟨"k123"⟩ rfl

/-- Claim C9: on every run of `query` whose outbound request succeeds —
whether the body then decodes or not — the effect trace ends with
closing the response body, so the stream is released before `query`
returns. -/
theorem claim9_stream_closed (fs : String → Except String RawContent)
    (net : String → Except String HttpResp) (city : String) (cfg : apiConfig) (r : HttpResp)
    (hcfg : loadApiConfig fs ".apiConfig" = .ok cfg)
    (hnet : net (requestURL city cfg.OpenWeatherMapApiKey) = .ok r) :
    (query fs net city).snd =
      [.fileRead ".apiConfig", .httpGet (requestURL city cfg.OpenWeatherMapApiKey),
       .closeBody] ∧
    Effect.closeBody ∈ (query fs net city).snd := by
  obtain ⟨code, body⟩ := r
  cases body with
  | notJson m =>
    rw [query_of_notJson fs net city cfg code m hcfg hnet]
    exact ⟨rfl, by simp⟩
  | json v =>
    cases hdec : decodeWeatherData v with
    | error m =>
      rw [query_of_json_err fs net city cfg code v m hcfg hnet hdec]
      exact ⟨rfl, by simp⟩
    | ok d =>
      rw [query_of_json_ok fs net city cfg code v d hcfg hnet hdec]
      exact ⟨rfl, by simp⟩

/-- Witness for C9 on a successful concrete run. -/
theorem claim9_witness :
    (query fsGood netGood "Paris").snd =
      [.fileRead ".apiConfig", .httpGet (requestURL "Paris" "k123"), .closeBody] ∧
    Effect.closeBody ∈ (query fsGood netGood "Paris").snd :=
  claim9_stream_closed fsGood netGood "Paris" ⟨"k123"⟩ ⟨200, .json londonBody⟩ rfl rfl

/-- Claim C10: when the remainder after `/weather/` itself contains
slashes, the whole remainder — slashes included — is the city handed to
`query`; it is never split further and the response is never a 400 or a
404. -/
theorem claim10_slashes_kept (fs : String → Except String RawContent)
    (net : String → Except String HttpResp) (rest : String)
    (h : '/' ∈ rest.toList) :
    weatherHandler fs net ("/weather/" ++ rest) = weatherResponse (query fs net rest) ∧
    (weatherHandler fs net ("/weather/" ++ rest)).fst.status ≠ 400 ∧
    (weatherHandler fs net ("/weather/" ++ rest)).fst.status ≠ 404 := by
  have hne : rest ≠ "" := fun he => absurd (he ▸ h) (by decide)
  refine ⟨weatherHandler_nonempty fs net rest hne, ?_, ?_⟩
  · rw [weatherHandler_nonempty fs net rest hne]
    rcases weatherResponse_status (query fs net rest) with h5 | h5
    · rw [h5]; decide
    · rw [h5]; decide
  · rw [weatherHandler_nonempty fs net rest hne]
    rcases weatherResponse_status (query fs net rest) with h5 | h5
    · rw [h5]; decide
    · rw [h5]; decide

/-- Witness for C10 at the path `/weather/a/b/c`. -/
theorem claim10_witness :
    weatherHandler fsGood netGood ("/weather/" ++ "a/b/c") =
      weatherResponse (query fsGood netGood "a/b/c") ∧
    (weatherHandler fsGood netGood ("/weather/" ++ "a/b/c")).fst.status ≠ 400 ∧
    (weatherHandler fsGood netGood ("/weather/" ++ "a/b/c")).fst.status ≠ 404 :=
  claim10_slashes_kept fsGood netGood "a/b/c" (by decide)

end WeatherGo
